import Mathlib

/-!
Shallow embedding of `src/components/AudioChatbot.tsx` (voisebot).

The component is a browser UI with a recording hook (`useAudioRecorder`),
a submit handler (`handleSubmit`) posting the captured audio blob to a
backend, and a render function.  We embed the component state as a
structure, each handler as a pure state-transition function parameterised
by the outcome of its external interactions (microphone acquisition,
HTTP request), and the side effects (HTTP posts, speech synthesis, track
release, console logging) as an explicit effect list.
-/

set_option autoImplicit false

namespace Voisebot

/-- An opaque piece of binary data (one `BlobPart` pushed by
`ondataavailable`). -/
abbrev BlobPart := Nat

/-- A binary blob: the buffered chunks and the media type it was tagged
with (`new Blob(chunks.current, \x7b type: 'audio/webm' \x7d)`). -/
structure Blob where
  chunks : List BlobPart
  mediaType : String
deriving DecidableEq

/-- A media-stream track id, used to model
`stream.getTracks().forEach(track => track.stop())`. -/
abbrev TrackId := Nat

/-- The microphone stream returned by `getUserMedia`. -/
structure MediaStream where
  tracks : List TrackId
deriving DecidableEq

/-- `interface MathOperation`: `result` is `number | string`. -/
inductive ResultVal where
  | num (n : Int)
  | str (s : String)
deriving DecidableEq

/-- `interface MathOperation \x7b num1; operator; num2; result \x7d`. -/
structure MathOperation where
  num1 : Int
  operator : String
  num2 : Int
  result : ResultVal
deriving DecidableEq

/-- `interface ApiResponse \x7b text_response; math_operation \x7d`. -/
structure ApiResponse where
  text_response : String
  math_operation : Option MathOperation
deriving DecidableEq

/-- Observable side effects of the handlers. -/
inductive Effect where
  | logError (msg : String)
  | httpPost (url : String) (field : String) (blob : Blob)
  | speak (text : String)
  | stopTrack (t : TrackId)
deriving DecidableEq

/-- The combined state of `useAudioRecorder` (`isRecording`, `audioBlob`,
`mediaRecorder`, `chunks`) and `AudioChatbot` (`response`, `isProcessing`,
`error`).  The `mediaRecorder` ref is modelled by the stream it holds. -/
structure ComponentState where
  isRecording : Bool
  audioBlob : Option Blob
  mediaRecorder : Option MediaStream
  chunks : List BlobPart
  response : Option ApiResponse
  isProcessing : Bool
  error : Option String
deriving DecidableEq

/-- The state right after mount: nothing recorded, nothing in flight. -/
def initState : ComponentState :=
  { isRecording := false
    audioBlob := none
    mediaRecorder := none
    chunks := []
    response := none
    isProcessing := false
    error := none }

/-- `startRecording`: `mic` is the outcome of
`navigator.mediaDevices.getUserMedia(\x7b audio: true \x7d)` — `none` when it
throws (permission denied / device unavailable).  On failure the catch
block only logs; on success a recorder is created over the stream, the
chunk buffer is reset, the recorder is started and `isRecording` is set. -/
def startRecording (s : ComponentState) (mic : Option MediaStream) :
    ComponentState × List Effect :=
  match mic with
  | none => (s, [Effect.logError "Error accessing microphone:"])
  | some stream =>
      ({ s with mediaRecorder := some stream, chunks := [], isRecording := true }, [])

/-- `ondataavailable`: pushes one chunk onto the buffer. -/
def dataAvailable (s : ComponentState) (d : BlobPart) : ComponentState :=
  { s with chunks := s.chunks ++ [d] }

/-- `stopRecording`: guarded by `mediaRecorder.current && isRecording`.
When active, `mediaRecorder.stop()` fires `onstop`, which builds one blob
from the buffered chunks tagged `audio/webm`, stores it as `audioBlob`,
and stops every track of the stream; `setIsRecording(false)` follows. -/
def stopRecording (s : ComponentState) : ComponentState × List Effect :=
  match s.mediaRecorder with
  | none => (s, [])
  | some stream =>
      if s.isRecording then
        ({ s with
            audioBlob := some { chunks := s.chunks, mediaType := "audio/webm" }
            isRecording := false },
         stream.tracks.map Effect.stopTrack)
      else (s, [])

/-- The user-facing message stored by the catch block of `handleSubmit`. -/
def genericErrorMsg : String := "Failed to process audio. Please try again."

/-- Outcome of the awaited `axios.post`: a parsed `ApiResponse`, or a
failure (network error, non-2xx status, malformed body — axios throws in
each case). -/
inductive SubmitOutcome where
  | success (resp : ApiResponse)
  | failure
deriving DecidableEq

/-- `handleSubmit`: returns immediately when `audioBlob` is null;
otherwise sets `isProcessing := true`, clears `error`, posts the blob as
the multipart field `audio` to the configured endpoint, and on the
outcome either stores the parsed response (speaking a non-empty
`text_response` when the audio player ref is mounted) or logs and stores
the generic error message; `finally` clears `isProcessing`.
`baseURL` is `process.env.NEXT_PUBLIC_API_URL`; `audioPlayerPresent` is
whether `audioPlayer.current` is non-null. -/
def handleSubmit (baseURL : String) (audioPlayerPresent : Bool)
    (s : ComponentState) (outcome : SubmitOutcome) :
    ComponentState × List Effect :=
  match s.audioBlob with
  | none => (s, [])
  | some blob =>
      let s1 := { s with isProcessing := true, error := none }
      let post := Effect.httpPost (baseURL ++ "/api/process-audio") "audio" blob
      match outcome with
      | SubmitOutcome.success resp =>
          ({ s1 with response := some resp, isProcessing := false },
           [post] ++
             (if audioPlayerPresent && !(resp.text_response = "") then
               [Effect.speak resp.text_response]
             else []))
      | SubmitOutcome.failure =>
          ({ s1 with error := some genericErrorMsg, isProcessing := false },
           [post, Effect.logError "Error processing audio:"])

/-- First half of `handleSubmit`, up to the await on `axios.post`: the
state visible while the request is in flight, and the issued request. -/
def submitBegin (baseURL : String) (s : ComponentState) :
    ComponentState × List Effect :=
  match s.audioBlob with
  | none => (s, [])
  | some blob =>
      ({ s with isProcessing := true, error := none },
       [Effect.httpPost (baseURL ++ "/api/process-audio") "audio" blob])

/-- Second half of `handleSubmit`, from the resolution of `axios.post`
to the end of the `finally` block. -/
def submitFinish (audioPlayerPresent : Bool) (s : ComponentState)
    (outcome : SubmitOutcome) : ComponentState × List Effect :=
  match outcome with
  | SubmitOutcome.success resp =>
      ({ s with response := some resp, isProcessing := false },
       if audioPlayerPresent && !(resp.text_response = "") then
         [Effect.speak resp.text_response]
       else [])
  | SubmitOutcome.failure =>
      ({ s with error := some genericErrorMsg, isProcessing := false },
       [Effect.logError "Error processing audio:"])

/-- `disabled=\x7bisProcessing\x7d` on the record toggle button. -/
def recordButtonDisabled (s : ComponentState) : Bool := s.isProcessing

/-- `audioBlob && !isRecording` guards rendering of the send button. -/
def sendButtonVisible (s : ComponentState) : Bool :=
  s.audioBlob.isSome && !s.isRecording

/-- `disabled=\x7bisProcessing\x7d` on the send button. -/
def sendButtonDisabled (s : ComponentState) : Bool := s.isProcessing

/-- A click on the record toggle: a disabled button fires no handler;
otherwise `onClick=\x7bisRecording ? stopRecording : startRecording\x7d`. -/
def recordClick (s : ComponentState) (mic : Option MediaStream) :
    ComponentState × List Effect :=
  if recordButtonDisabled s then (s, [])
  else if s.isRecording then stopRecording s
  else startRecording s mic

/-- A click on the send button: fires `handleSubmit`'s first half only
when the button is rendered and not disabled. -/
def sendClick (baseURL : String) (s : ComponentState) :
    ComponentState × List Effect :=
  if sendButtonVisible s && !(sendButtonDisabled s) then submitBegin baseURL s
  else (s, [])

/-- One UI-driven transition: the controls fire only when rendered and
enabled, `ondataavailable` only while recording, and the in-flight
request resolves only while processing. -/
inductive Step : ComponentState → ComponentState → Prop where
  | startRec (s : ComponentState) (mic : Option MediaStream)
      (hd : recordButtonDisabled s = false) (hr : s.isRecording = false) :
      Step s (startRecording s mic).1
  | stopRec (s : ComponentState)
      (hd : recordButtonDisabled s = false) (hr : s.isRecording = true) :
      Step s (stopRecording s).1
  | data (s : ComponentState) (d : BlobPart) (hr : s.isRecording = true) :
      Step s (dataAvailable s d)
  | submitB (s : ComponentState) (baseURL : String)
      (hv : sendButtonVisible s = true) (hd : sendButtonDisabled s = false) :
      Step s (submitBegin baseURL s).1
  | submitF (s : ComponentState) (audioPlayerPresent : Bool)
      (outcome : SubmitOutcome) (hp : s.isProcessing = true) :
      Step s (submitFinish audioPlayerPresent s outcome).1

/-- States reachable from the mount state by UI-driven transitions. -/
def Reachable (s : ComponentState) : Prop :=
  Relation.ReflTransGen Step initState s

/-- The nodes of the rendered tree that carry the component's state. -/
inductive RenderNode where
  | recordButton (label : String) (disabled : Bool)
  | sendButton (disabled : Bool)
  | processingIndicator
  | errorMsg (text : String)
  | responseText (text : String)
  | operandDisplay (num1 : Int) (operator : String) (num2 : Int) (result : ResultVal)
  | comparisonGame (leftCount : Int) (rightCount : Int) (operator : String)
      (result : ResultVal)
deriving DecidableEq

/-- `VisualMathOperation`: shows the two operands, operator and result,
then invokes `ComparisonGame` with
`leftCount=num1, rightCount=num2, operator, result`. -/
def renderVisualMathOperation (op : MathOperation) : List RenderNode :=
  [RenderNode.operandDisplay op.num1 op.operator op.num2 op.result,
   RenderNode.comparisonGame op.num1 op.num2 op.operator op.result]

/-- The JSX returned by `AudioChatbot`, flattened to its stateful nodes:
the record toggle, the send button when `audioBlob && !isRecording`, the
processing indicator when `isProcessing`, the error message when `error`,
and the response panel (text plus, when `math_operation` is non-null, the
`VisualMathOperation` subtree) when `response`. -/
def render (s : ComponentState) : List RenderNode :=
  [RenderNode.recordButton
      (if s.isRecording then "Stop Recording" else "Start Recording")
      s.isProcessing] ++
  (if s.audioBlob.isSome && !s.isRecording then
      [RenderNode.sendButton s.isProcessing]
    else []) ++
  (if s.isProcessing then [RenderNode.processingIndicator] else []) ++
  (match s.error with
   | some e => [RenderNode.errorMsg e]
   | none => []) ++
  (match s.response with
   | some r =>
       [RenderNode.responseText r.text_response] ++
       (match r.math_operation with
        | some op => renderVisualMathOperation op
        | none => [])
   | none => [])

/-- The `ComparisonGame` invocations contained in a rendered tree. -/
def comparisonNodes (ns : List RenderNode) : List RenderNode :=
  ns.filter fun n =>
    match n with
    | RenderNode.comparisonGame _ _ _ _ => true
    | _ => false

/-- A sample captured blob. -/
def b0 : Blob := { chunks := [7], mediaType := "audio/webm" }

/-- A sample backend response without a math operation. -/
def r0 : ApiResponse := { text_response := "4", math_operation := none }

/-- A sample math operation (`2 + 2 = 4`). -/
def op0 : MathOperation :=
  { num1 := 2, operator := "+", num2 := 2, result := ResultVal.num 4 }

/-- A sample backend response carrying a math operation. -/
def respWithOp : ApiResponse := { text_response := "4", math_operation := some op0 }

/-- A state holding a captured, unsent blob. -/
def blobReady : ComponentState := { initState with audioBlob := some b0 }

/-- A state holding both a captured blob and a previously stored
response. -/
def withResp : ComponentState :=
  { initState with audioBlob := some b0, response := some r0 }

/-- A state displaying a response that carries a math operation. -/
def withMathResp : ComponentState := { initState with response := some respWithOp }

/-- A state in the middle of an active recording session. -/
def recActive : ComponentState :=
  { initState with
      mediaRecorder := some { tracks := [5] }
      isRecording := true
      chunks := [1, 2] }

/-! ## Helper lemmas -/

/-- When a blob is present, `handleSubmit` is the composition of its two
halves, split at the await on `axios.post`. -/
lemma handleSubmit_eq_begin_finish (baseURL : String) (p : Bool)
    (s : ComponentState) (o : SubmitOutcome) (b : Blob)
    (h : s.audioBlob = some b) :
    handleSubmit baseURL p s o =
      ((submitFinish p (submitBegin baseURL s).1 o).1,
       (submitBegin baseURL s).2 ++ (submitFinish p (submitBegin baseURL s).1 o).2) := by
  cases o <;> simp [handleSubmit, submitBegin, submitFinish, h]

/-- Folding `ondataavailable` events appends their chunks to the buffer
and touches nothing else. -/
lemma dataAvailable_foldl (ds : List BlobPart) (s : ComponentState) :
    ds.foldl dataAvailable s = { s with chunks := s.chunks ++ ds } := by
  induction ds generalizing s with
  | nil => simp
  | cons d ds ih => simp [List.foldl, dataAvailable, ih]

/-! ## Claims -/

/-- C10: calling `handleSubmit` when no captured audio blob exists
returns immediately and changes no state: no processing flag, no HTTP
request, no change to `error` or `response`. -/
theorem C10_handleSubmit_without_blob_noop (baseURL : String) (p : Bool)
    (s : ComponentState) (o : SubmitOutcome) (h : s.audioBlob = none) :
    handleSubmit baseURL p s o = (s, []) := by
  simp [handleSubmit, h]

/-- C10 witness: at the mount state (which has no blob) `handleSubmit`
is a no-op. -/
theorem C10_witness :
    handleSubmit "u" true initState SubmitOutcome.failure = (initState, []) :=
  C10_handleSubmit_without_blob_noop "u" true initState SubmitOutcome.failure rfl

/-- C9: while `isProcessing` is true the send control is disabled, so a
second submission attempt fires nothing: no state transition and no
issued request. -/
theorem C9_second_submit_during_processing_noop (baseURL : String)
    (s : ComponentState) (h : s.isProcessing = true) :
    sendClick baseURL s = (s, []) := by
  simp [sendClick, sendButtonDisabled, h]

/-- C9 witness: clicking send in a concrete processing state does
nothing. -/
theorem C9_witness :
    sendClick "u" { initState with isProcessing := true } =
      ({ initState with isProcessing := true }, []) :=
  C9_second_submit_during_processing_noop "u" { initState with isProcessing := true } rfl

/-- C6: when microphone acquisition fails, `startRecording` logs the
error and leaves the whole state unchanged — `isRecording` keeps its
value, the captured blob is untouched, and no user-visible error is
stored. -/
theorem C6_startRecording_mic_failure (s : ComponentState) :
    startRecording s none = (s, [Effect.logError "Error accessing microphone:"]) :=
  rfl

/-- C5: `stopRecording` is a no-op (no state change, no effect) when no
recorder exists or no recording is active; when a recording is active it
stores the buffered chunks as one `audio/webm` blob, stops every stream
track, and clears `isRecording`. -/
theorem C5_stopRecording_behaviour (s : ComponentState) :
    ((s.mediaRecorder = none ∨ s.isRecording = false) → stopRecording s = (s, [])) ∧
    (∀ stream, s.mediaRecorder = some stream → s.isRecording = true →
      stopRecording s =
        ({ s with
            audioBlob := some { chunks := s.chunks, mediaType := "audio/webm" }
            isRecording := false },
         stream.tracks.map Effect.stopTrack)) := by
  constructor
  · intro h
    rcases h with h | h
    · simp [stopRecording, h]
    · cases hm : s.mediaRecorder <;> simp [stopRecording, hm, h]
  · intro stream hm hr
    simp [stopRecording, hm, hr]

/-- C5 witness: stopping at the mount state (never started) is a no-op,
and stopping an active session finalizes the chunks into an `audio/webm`
blob, stops the track, and clears the recording flag. -/
theorem C5_witness :
    stopRecording initState = (initState, []) ∧
    stopRecording recActive =
      ({ recActive with
          audioBlob := some { chunks := [1, 2], mediaType := "audio/webm" }
          isRecording := false },
       [Effect.stopTrack 5]) :=
  ⟨(C5_stopRecording_behaviour initState).1 (Or.inl rfl),
   (C5_stopRecording_behaviour recActive).2 { tracks := [5] } rfl rfl⟩

/-- C4: with a captured blob present, `handleSubmit` sets `isProcessing`
at its start (visible while the request is in flight), the `finally`
step clears it for every outcome, and a failure stores exactly the one
generic user-facing message. -/
theorem C4_processing_cleared_and_generic_error (baseURL : String) (p : Bool)
    (s : ComponentState) (b : Blob) (h : s.audioBlob = some b)
    (o : SubmitOutcome) :
    (submitBegin baseURL s).1.isProcessing = true ∧
    (handleSubmit baseURL p s o).1.isProcessing = false ∧
    (o = SubmitOutcome.failure →
      (handleSubmit baseURL p s o).1.error = some genericErrorMsg) := by
  refine ⟨by simp [submitBegin, h], ?_, ?_⟩
  · cases o <;> simp [handleSubmit, h]
  · intro ho; subst ho; simp [handleSubmit, h]

/-- C4 witness: a failed submission from a concrete blob-holding state
shows processing during the request, processing cleared afterwards, and
the generic error stored. -/
theorem C4_witness :
    (submitBegin "u" blobReady).1.isProcessing = true ∧
    (handleSubmit "u" true blobReady SubmitOutcome.failure).1.isProcessing = false ∧
    (SubmitOutcome.failure = SubmitOutcome.failure →
      (handleSubmit "u" true blobReady SubmitOutcome.failure).1.error =
        some genericErrorMsg) :=
  C4_processing_cleared_and_generic_error "u" true blobReady b0 rfl
    SubmitOutcome.failure

/-- C7: on a successful submission (with the audio player mounted) the
parsed response is stored; speech synthesis is invoked iff the text
response is non-empty and only ever with exactly that text; and the
processing flag is cleared in the final state regardless. -/
theorem C7_success_stores_response_and_speaks (baseURL : String)
    (s : ComponentState) (b : Blob) (h : s.audioBlob = some b)
    (resp : ApiResponse) :
    (handleSubmit baseURL true s (SubmitOutcome.success resp)).1.response = some resp ∧
    (handleSubmit baseURL true s (SubmitOutcome.success resp)).1.isProcessing = false ∧
    ((∃ t, Effect.speak t ∈ (handleSubmit baseURL true s (SubmitOutcome.success resp)).2) ↔
      resp.text_response ≠ "") ∧
    (∀ t, Effect.speak t ∈ (handleSubmit baseURL true s (SubmitOutcome.success resp)).2 →
      t = resp.text_response) := by
  refine ⟨by simp [handleSubmit, h], by simp [handleSubmit, h], ?_, ?_⟩
  · by_cases he : resp.text_response = "" <;>
      simp [handleSubmit, h, he]
  · intro t ht
    by_cases he : resp.text_response = "" <;>
      simp [handleSubmit, h, he] at ht
    exact ht

/-- C7 witness: a success with non-empty text `4` from a concrete state
stores the response, speaks exactly `4`, and clears processing. -/
theorem C7_witness :
    (handleSubmit "u" true blobReady (SubmitOutcome.success r0)).1.response = some r0 ∧
    (handleSubmit "u" true blobReady (SubmitOutcome.success r0)).1.isProcessing = false ∧
    ((∃ t, Effect.speak t ∈ (handleSubmit "u" true blobReady (SubmitOutcome.success r0)).2) ↔
      r0.text_response ≠ "") ∧
    (∀ t, Effect.speak t ∈ (handleSubmit "u" true blobReady (SubmitOutcome.success r0)).2 →
      t = r0.text_response) :=
  C7_success_stores_response_and_speaks "u" blobReady b0 rfl r0

/-- C1 counterexample: starting from a state holding a stored response
and a captured blob, a failed submission leaves BOTH `response` and
`error` non-null, refuting mutual exclusivity after any completed
submission. -/
theorem C1_counterexample_both_non_null :
    ¬((handleSubmit "u" true withResp SubmitOutcome.failure).1.response = none ∨
      (handleSubmit "u" true withResp SubmitOutcome.failure).1.error = none) := by
  decide

/-- C1 amended: `handleSubmit` clears only the stored error (never the
stored response) before issuing the request; after a successful
submission `error` is null and `response` holds the new result, while
after a failed submission `error` holds the generic message and the
prior `response` is retained, so a stale response can sit alongside the
new error. -/
theorem C1_amended_only_error_cleared (baseURL : String) (p : Bool)
    (s : ComponentState) (b : Blob) (h : s.audioBlob = some b) :
    ((submitBegin baseURL s).1.error = none ∧
      (submitBegin baseURL s).1.response = s.response) ∧
    (∀ resp,
      (handleSubmit baseURL p s (SubmitOutcome.success resp)).1.error = none ∧
      (handleSubmit baseURL p s (SubmitOutcome.success resp)).1.response = some resp) ∧
    ((handleSubmit baseURL p s SubmitOutcome.failure).1.error = some genericErrorMsg ∧
      (handleSubmit baseURL p s SubmitOutcome.failure).1.response = s.response) := by
  refine ⟨⟨by simp [submitBegin, h], by simp [submitBegin, h]⟩, ?_, ?_⟩
  · intro resp
    exact ⟨by simp [handleSubmit, h], by simp [handleSubmit, h]⟩
  · exact ⟨by simp [handleSubmit, h], by simp [handleSubmit, h]⟩

/-- C1 amended witness: instantiated at a concrete state holding a blob
and a previous response. -/
theorem C1_amended_witness :
    ((submitBegin "u" withResp).1.error = none ∧
      (submitBegin "u" withResp).1.response = withResp.response) ∧
    (∀ resp,
      (handleSubmit "u" true withResp (SubmitOutcome.success resp)).1.error = none ∧
      (handleSubmit "u" true withResp (SubmitOutcome.success resp)).1.response = some resp) ∧
    ((handleSubmit "u" true withResp SubmitOutcome.failure).1.error = some genericErrorMsg ∧
      (handleSubmit "u" true withResp SubmitOutcome.failure).1.response = withResp.response) :=
  C1_amended_only_error_cleared "u" true withResp b0 rfl

/-- C3 counterexample: with a previously captured blob present, a
successful `startRecording` leaves that very blob stored as the captured
audio — it is NOT discarded when the new recording begins. -/
theorem C3_counterexample_old_blob_kept :
    (startRecording withResp (some { tracks := [5] })).1.audioBlob = some b0 := by
  decide

/-- C3 amended: `startRecording` does not clear the previously captured
blob — it stays the session's captured audio while the new recording
runs; what is reset is the chunk buffer, so the old blob is replaced
only when the new recording is stopped, by a blob built solely from the
new session's chunks. -/
theorem C3_amended_blob_replaced_on_stop (s : ComponentState)
    (stream : MediaStream) :
    (startRecording s (some stream)).1.audioBlob = s.audioBlob ∧
    (startRecording s (some stream)).1.chunks = [] ∧
    (∀ ds : List BlobPart,
      (stopRecording (ds.foldl dataAvailable (startRecording s (some stream)).1)).1.audioBlob =
        some { chunks := ds, mediaType := "audio/webm" }) := by
  refine ⟨rfl, rfl, ?_⟩
  intro ds
  rw [dataAvailable_foldl]
  simp [startRecording, stopRecording]

/-- Each UI-driven transition preserves mutual exclusion of the
recording and processing flags. -/
lemma step_preserves_exclusive {a b : ComponentState} (hs : Step a b)
    (ih : ¬(a.isRecording = true ∧ a.isProcessing = true)) :
    ¬(b.isRecording = true ∧ b.isProcessing = true) := by
  cases hs with
  | startRec mic hd hr =>
      cases mic with
      | none => exact ih
      | some stream =>
          simp only [recordButtonDisabled] at hd
          simp [startRecording, hd]
  | stopRec hd hr =>
      simp only [recordButtonDisabled] at hd
      cases hm : a.mediaRecorder with
      | none => simpa [stopRecording, hm] using ih
      | some stream => simp [stopRecording, hm, hr, hd]
  | data d hr =>
      simpa [dataAvailable] using ih
  | submitB baseURL hv hd =>
      simp only [sendButtonVisible, Bool.and_eq_true, Bool.not_eq_true',
        Option.isSome_iff_exists] at hv
      obtain ⟨⟨blob, hb⟩, hrec⟩ := hv
      simp [submitBegin, hb, hrec]
  | submitF p o hp =>
      cases o <;> simp [submitFinish]

/-- C2: in every state reachable by sequences of the start, stop, data
and submit operations under the UI's enabled/visible guards, at most one
of `isRecording` and `isProcessing` is true. -/
theorem C2_recording_processing_exclusive (s : ComponentState)
    (h : Reachable s) :
    ¬(s.isRecording = true ∧ s.isProcessing = true) := by
  induction h with
  | refl => simp [initState]
  | tail _ hstep ih => exact step_preserves_exclusive hstep ih

/-- C2 witness: the mount state is reachable and satisfies the
invariant. -/
theorem C2_witness :
    ¬(initState.isRecording = true ∧ initState.isProcessing = true) :=
  C2_recording_processing_exclusive initState Relation.ReflTransGen.refl

/-- C8: when a response is displayed, a `ComparisonGame` invocation is
rendered iff the response's `math_operation` is non-null, and when it is
rendered it is exactly one node carrying
`(num1, num2, operator, result)` of that operation. -/
theorem C8_comparison_panel_iff_math_operation (s : ComponentState)
    (r : ApiResponse) (h : s.response = some r) :
    (comparisonNodes (render s) ≠ [] ↔ r.math_operation ≠ none) ∧
    (∀ op, r.math_operation = some op →
      comparisonNodes (render s) =
        [RenderNode.comparisonGame op.num1 op.num2 op.operator op.result]) := by
  have hnodes : ∀ op, r.math_operation = some op →
      comparisonNodes (render s) =
        [RenderNode.comparisonGame op.num1 op.num2 op.operator op.result] := by
    intro op hop
    simp only [render, renderVisualMathOperation, h, hop, comparisonNodes,
      List.filter_append]
    split_ifs <;> rcases he : s.error with _ | e <;> simp [List.filter]
  have hempty : r.math_operation = none → comparisonNodes (render s) = [] := by
    intro hop
    simp only [render, renderVisualMathOperation, h, hop, comparisonNodes,
      List.filter_append]
    split_ifs <;> rcases he : s.error with _ | e <;> simp [List.filter]
  refine ⟨?_, hnodes⟩
  constructor
  · intro hne
    cases hop : r.math_operation with
    | none => exact absurd (hempty hop) hne
    | some op => simp [hop]
  · intro hne
    cases hop : r.math_operation with
    | none => exact absurd hop hne
    | some op => simp [hnodes op hop]

/-- C8 witness: with the concrete response `2 + 2 = 4` displayed, the
panel is rendered with exactly those operands, operator and result. -/
theorem C8_witness :
    (comparisonNodes (render withMathResp) ≠ [] ↔ respWithOp.math_operation ≠ none) ∧
    (∀ op, respWithOp.math_operation = some op →
      comparisonNodes (render withMathResp) =
        [RenderNode.comparisonGame op.num1 op.num2 op.operator op.result]) :=
  C8_comparison_panel_iff_math_operation withMathResp respWithOp rfl

end Voisebot
